import Mathlib

/-!
Shallow embedding of the aws-scanner core (src/aws_scanner/utils.py,
src/aws_scanner/scanners/base_scanner.py, src/aws_scanner/config/pricing.py,
src/scan_aws.py) and verification of the spec claims about it.

Python floats are modelled by `ℚ`, Python exceptions by the inductive `Exc`,
raising by returning the raised exception value, and time by an explicit
`now : ℚ` argument.  Concurrent worker pools are modelled by their sequential
linearization: a list of per-unit outcomes processed in completion order.
-/

namespace AwsScanner

/-- Python exceptions relevant to the scanner, flattened into one inductive.
`clientError` is the botocore `ClientError` carrying the response code and
message; `connectionError` is the botocore `ConnectionError`;
`awsAccessDenied` / `awsRateLimit` are the own exception types of the scanner,
`AWSAccessDeniedError` / `AWSRateLimitError`; `runtimeError` is the Python
`RuntimeError`; `otherError` stands for any other exception. -/
inductive Exc where
  | clientError (code message : String)
  | connectionError (message : String)
  | awsAccessDenied (message : String)
  | awsRateLimit (message : String)
  | runtimeError (message : String)
  | otherError (message : String)
  deriving DecidableEq, Repr

/-- An exception coming in from the provider layer (the exception types of
the scanner itself and Python runtime errors are not provider errors). -/
def Exc.isProviderError : Exc → Bool
  | .clientError _ _ => true
  | .connectionError _ => true
  | .otherError _ => true
  | _ => false

/-- The access-denied codes listed in `handle_aws_error`
(src/aws_scanner/utils.py line 39). -/
def accessDeniedCodes : List String :=
  ["AccessDeniedException", "UnauthorizedOperation", "AccessDenied"]

/-- The throttling codes listed in `handle_aws_error`
(src/aws_scanner/utils.py line 42). -/
def throttlingCodes : List String :=
  ["RequestLimitExceeded", "Throttling", "TooManyRequestsException"]

/-- `handle_aws_error(error, context)` (src/aws_scanner/utils.py 23-50).
The Python function always raises; the returned `Exc` is the exception it
raises.  A `ClientError` whose code is an access-denied code becomes
`AWSAccessDeniedError`, one with a throttling code becomes
`AWSRateLimitError`; every other exception (the remaining `ClientError`s
and all non-`ClientError`s) is re-raised unchanged (bare `raise`). -/
def handle_aws_error (error : Exc) (context : String) : Exc :=
  match error with
  | .clientError code msg =>
      if code ∈ accessDeniedCodes then
        .awsAccessDenied ("Access denied for " ++ context)
      else if code ∈ throttlingCodes then
        .awsRateLimit ("Rate limit hit for " ++ context)
      else
        .clientError code msg
  | e => e

/-- The default `exceptions` tuple of `retry_with_backoff`
(src/aws_scanner/utils.py line 57): `(ClientError, ConnectionError,
AWSRateLimitError)`.  `isinstance` membership flattened over `Exc`. -/
def default_retry_exceptions : Exc → Bool
  | .clientError _ _ => true
  | .connectionError _ => true
  | .awsRateLimit _ => true
  | _ => false

/-- Observable trace of one call of a `retry_with_backoff`-wrapped function:
how many times the wrapped operation was invoked, the sequence of
`time.sleep` delays performed between attempts, and the final outcome
(returned value or propagated exception). -/
structure RetryTrace (α : Type) where
  invocations : Nat
  sleeps : List ℚ
  result : Except Exc α
  deriving Repr

/-- The `for attempt in range(max_attempts)` loop of `retry_with_backoff`
(src/aws_scanner/utils.py 74-97).  `op i` is the outcome of the `i`-th
invocation of the wrapped function; `remaining` is the number of loop
iterations left; `lastExc` is the Python `last_exception` variable.  When the loop is
exhausted the code raises `last_exception` when set, else `RuntimeError`.
On an exception matching `retryable` the loop sleeps `delay` and multiplies
it by `factor` only when further attempts remain (`attempt < max_attempts-1`);
an exception not matching `retryable` escapes the `try` uncaught. -/
def retryAux (op : Nat → Except Exc α) (retryable : Exc → Bool) (factor : ℚ) :
    Nat → Nat → ℚ → Option Exc → RetryTrace α
  | 0, _, _, lastExc =>
      { invocations := 0, sleeps := [],
        result := .error (match lastExc with
          | some e => e
          | none => .runtimeError "All retry attempts failed") }
  | remaining + 1, attempt, delay, _ =>
      match op attempt with
      | .ok v => { invocations := 1, sleeps := [], result := .ok v }
      | .error e =>
          if retryable e then
            if remaining = 0 then
              let rest := retryAux op retryable factor 0 (attempt + 1) delay (some e)
              { invocations := rest.invocations + 1, sleeps := rest.sleeps,
                result := rest.result }
            else
              let rest := retryAux op retryable factor remaining (attempt + 1)
                (delay * factor) (some e)
              { invocations := rest.invocations + 1, sleeps := delay :: rest.sleeps,
                result := rest.result }
          else
            { invocations := 1, sleeps := [], result := .error e }

/-- One call of the wrapper produced by `retry_with_backoff` applied to an
operation whose `i`-th invocation yields `op i`
(src/aws_scanner/utils.py 53-99).  `max_attempts` is a Python `int`, hence
`ℤ`; `range(max_attempts)` has `max_attempts.toNat` iterations. -/
def retry_with_backoff (op : Nat → Except Exc α) (retryable : Exc → Bool)
    (max_attempts : ℤ) (initial_delay backoff_factor : ℚ) : RetryTrace α :=
  retryAux op retryable backoff_factor max_attempts.toNat 0 initial_delay none

/-- Python `int(x)`: truncation toward zero. -/
def pyInt (x : ℚ) : ℤ := if 0 ≤ x then ⌊x⌋ else ⌈x⌉

/-- State of the token-bucket `RateLimiter` (src/aws_scanner/utils.py
102-116).  `rate` and `burst` are set at construction; `tokens` is a float,
`burst` a Python `int` (kept as `ℤ`).  `last_update` is a timestamp. -/
structure RateLimiter where
  rate : ℚ
  burst : ℤ
  tokens : ℚ
  last_update : ℚ
  deriving DecidableEq, Repr

/-- `RateLimiter.__init__(rate, burst=None)` at wall-clock time `now`
(src/aws_scanner/utils.py 105-116): `self.burst = burst or int(rate)`
(`burst or int(rate)` falls back when `burst` is `None` or `0`),
`self.tokens = float(self.burst)`, `self.last_update = time.time()`. -/
def RateLimiter.init (rate : ℚ) (burst : Option ℤ) (now : ℚ) : RateLimiter :=
  let b : ℤ := match burst with
    | some v => if v ≠ 0 then v else pyInt rate
    | none => pyInt rate
  { rate := rate, burst := b, tokens := (b : ℚ), last_update := now }

/-- `RateLimiter.acquire(tokens)` called at wall-clock time `now`
(src/aws_scanner/utils.py 118-143).  Both branches of the `while True`
body `return`, so the loop runs exactly once.  Refill:
`self.tokens = min(self.burst, self.tokens + elapsed*self.rate)`,
`self.last_update = now`.  If `self.tokens >= tokens` the bucket is debited
and `0.0` returned; otherwise the call computes `wait_time = deficit/rate`,
sleeps, and returns `wait_time` — leaving `self.tokens` and
`self.last_update` exactly as the refill left them (no debit after the
sleep).  Returns the slept time and the post-call state. -/
def RateLimiter.acquire (rl : RateLimiter) (now : ℚ) (tokens : ℕ := 1) :
    ℚ × RateLimiter :=
  let elapsed := now - rl.last_update
  let refilled := min (rl.burst : ℚ) (rl.tokens + elapsed * rl.rate)
  if (tokens : ℚ) ≤ refilled then
    (0, { rl with tokens := refilled - (tokens : ℚ), last_update := now })
  else
    let deficit := (tokens : ℚ) - refilled
    let wait_time := deficit / rl.rate
    (wait_time, { rl with tokens := refilled, last_update := now })

/-- A sequence of `acquire(1)` calls: each entry of `gaps` is the (nonneg)
wall-clock time between one call and the next.  Returns the final state. -/
def RateLimiter.acquireSeq (rl : RateLimiter) : List ℚ → RateLimiter
  | [] => rl
  | gap :: gaps => ((rl.acquire (rl.last_update + gap) 1).2).acquireSeq gaps

/-- The account in the spec of a blocking `acquire` ("sleep `wait`, then debit —
tokens set to 0 after the wait, and the implementation must not double-count
elapsed time across the wait"): after sleeping, the refill of the bucket over the
sleep covers the deficit, the requested tokens are debited (leaving 0), and
`last_update` is advanced to the end of the sleep so the slept interval is
never refilled again.  Used only to exhibit where the code diverges. -/
def RateLimiter.acquireSpec (rl : RateLimiter) (now : ℚ) (tokens : ℕ := 1) :
    ℚ × RateLimiter :=
  let elapsed := now - rl.last_update
  let refilled := min (rl.burst : ℚ) (rl.tokens + elapsed * rl.rate)
  if (tokens : ℚ) ≤ refilled then
    (0, { rl with tokens := refilled - (tokens : ℚ), last_update := now })
  else
    let wait_time := ((tokens : ℚ) - refilled) / rl.rate
    (wait_time, { rl with tokens := 0, last_update := now + wait_time })

/-- `INSTANCE_PRICING` (src/aws_scanner/config/pricing.py 8-44), the EC2
monthly-cost table, as an association list. -/
def INSTANCE_PRICING : List (String × ℚ) :=
  [("t2.nano", 4.25), ("t2.micro", 8.50), ("t2.small", 17.00),
   ("t2.medium", 34.00), ("t2.large", 68.00), ("t2.xlarge", 136.00),
   ("t2.2xlarge", 272.00),
   ("t3.nano", 3.80), ("t3.micro", 7.50), ("t3.small", 15.00),
   ("t3.medium", 30.00), ("t3.large", 60.00), ("t3.xlarge", 120.00),
   ("t3.2xlarge", 240.00),
   ("m5.large", 70.00), ("m5.xlarge", 140.00), ("m5.2xlarge", 280.00),
   ("m5.4xlarge", 560.00), ("m5.8xlarge", 1120.00),
   ("c5.large", 62.00), ("c5.xlarge", 124.00), ("c5.2xlarge", 248.00),
   ("c5.4xlarge", 496.00),
   ("r5.large", 92.00), ("r5.xlarge", 184.00), ("r5.2xlarge", 368.00),
   ("r5.4xlarge", 736.00)]

/-- `get_instance_cost(instance_type, state)`
(src/aws_scanner/config/pricing.py 85-104): non-running states cost `0.0`;
otherwise `INSTANCE_PRICING.get(instance_type, 50.0)`. -/
def get_instance_cost (instance_type : String) (state : String) : ℚ :=
  if state ≠ "running" then 0
  else
    match INSTANCE_PRICING.find? (fun p => p.1 == instance_type) with
    | some p => p.2
    | none => 50

/-- The slice of `ScannerConfig` that `BaseScanner._filter_regions` reads
(src/aws_scanner/scanners/base_scanner.py 152-172). -/
structure ScannerConfig where
  skip_regions : List String
  only_regions : List String
  deriving DecidableEq, Repr

/-- `BaseScanner._filter_regions(regions)`
(src/aws_scanner/scanners/base_scanner.py 152-172): the skip filter is
applied first (when `skip_regions` is non-empty/truthy), then the only
filter (when `only_regions` is non-empty/truthy). -/
def filter_regions (cfg : ScannerConfig) (regions : List String) : List String :=
  let filtered := regions
  let filtered :=
    if cfg.skip_regions ≠ [] then
      filtered.filter (fun r => decide (r ∉ cfg.skip_regions))
    else filtered
  let filtered :=
    if cfg.only_regions ≠ [] then
      filtered.filter (fun r => decide (r ∈ cfg.only_regions))
    else filtered
  filtered

/-- `ScanResult` (src/aws_scanner/scanners/base_scanner.py 16-23), minus
the logging-only `duration` field; resources are abstract at type `α`. -/
structure ScanResult (α : Type) where
  region : String
  resources : List α
  error : Option Exc

/-- `BaseScanner._scan_region_with_error_handling(region)`
(src/aws_scanner/scanners/base_scanner.py 119-150).  `scan region` is the
outcome of `scan_single_region(region)` (raised exception or resource
list); the bare `except Exception` converts any raise into a `ScanResult`
carrying the error and an empty resource list.  The `rate_limiter.acquire`
call and `duration` bookkeeping return normally and do not affect the
resources, and are elided. -/
def scan_region_with_error_handling (scan : String → Except Exc (List α))
    (region : String) : ScanResult α :=
  match scan region with
  | .ok resources => { region := region, resources := resources, error := none }
  | .error e => { region := region, resources := [], error := some e }

/-- `BaseScanner.scan_all_regions()`
(src/aws_scanner/scanners/base_scanner.py 61-117) with the worker pool
linearized to completion order `regions_to_scan`: filter the regions,
return `[]` when none remain, otherwise accumulate `all_resources` by
extending with the resources of each completed `ScanResult` exactly when its
`error` field is unset (an errored region only logs). -/
def scan_all_regions (cfg : ScannerConfig) (scan : String → Except Exc (List α))
    (regions : List String) : List α :=
  let regions_to_scan := filter_regions cfg regions
  if regions_to_scan = [] then []
  else
    (regions_to_scan.map (scan_region_with_error_handling scan)).foldl
      (fun all_resources result =>
        match result.error with
        | some _ => all_resources
        | none => all_resources ++ result.resources) []

/-- `scan_services_streaming(scanners)` (src/scan_aws.py 413-475) with the
service pool linearized to completion order: each entry of `services` is
the outcome of `scan_all_regions` of one scanner (the `result()` of its future),
the `try` yields every resource of a successful service, and the
`except Exception` around `future.result()` only logs, so a throwing
service contributes nothing.  The yielded stream is returned as a list. -/
def scan_services_streaming : List (Except Exc (List α)) → List α
  | [] => []
  | .ok resources :: rest => resources ++ scan_services_streaming rest
  | .error _ :: rest => scan_services_streaming rest

/-- `scan_services_concurrently(scanners)` (src/scan_aws.py 478-493):
`list(scan_services_streaming(scanners, show_progress))`. -/
def scan_services_concurrently (services : List (Except Exc (List α))) : List α :=
  scan_services_streaming services

/-- Every price in the `INSTANCE_PRICING` table is strictly positive. -/
lemma INSTANCE_PRICING_pos : ∀ p ∈ INSTANCE_PRICING, (0 : ℚ) < p.2 := by
  intro p hp
  fin_cases hp <;> norm_num

/-- C10: `get_instance_cost(instance_type, state)` returns exactly `0.0`
whenever `state` is not `running`, and a strictly positive value (the table
price, or the `50.0` default for an unknown type) when `state` is
`running`; being a total function of its two string arguments, it never
raises. -/
theorem get_instance_cost_state_gate (instance_type state : String) :
    (state ≠ "running" → get_instance_cost instance_type state = 0) ∧
    (state = "running" → 0 < get_instance_cost instance_type state) := by
  constructor
  · intro h
    simp [get_instance_cost, h]
  · intro h
    subst h
    simp only [get_instance_cost, ne_eq, not_true_eq_false, if_false]
    cases hfind : INSTANCE_PRICING.find? (fun p => p.1 == instance_type) with
    | none => norm_num
    | some p =>
        have hp := INSTANCE_PRICING_pos p (List.mem_of_find?_eq_some hfind)
        simpa using hp

/-- Witness for C10 at the inputs `("t2.micro", "stopped")` and
`("m7g.medium", "running")` (the latter is absent from the table). -/
theorem get_instance_cost_state_gate_witness :
    get_instance_cost "t2.micro" "stopped" = 0 ∧
    0 < get_instance_cost "m7g.medium" "running" :=
  ⟨(get_instance_cost_state_gate "t2.micro" "stopped").1 (by decide),
   (get_instance_cost_state_gate "m7g.medium" "running").2 rfl⟩

/-- C8 counterexample: with `rate = 2.5` and no explicit burst, the
constructor sets `burst = int(2.5) = 2`, not `ceil(2.5) = 3`. -/
theorem default_burst_counterexample :
    (RateLimiter.init (5 / 2) none 0).burst = 2 ∧
    ¬ (RateLimiter.init (5 / 2) none 0).burst = 3 := by
  constructor <;> norm_num [RateLimiter.init, pyInt]

/-- C8 (amended): for every `rate > 0`, a `RateLimiter` constructed
without an explicit burst has `burst = int(rate)`, which truncates toward
zero — i.e. `⌊rate⌋`, not `⌈rate⌉`. -/
theorem default_burst_is_floor (rate : ℚ) (h : 0 < rate) (now : ℚ) :
    (RateLimiter.init rate none now).burst = ⌊rate⌋ := by
  simp [RateLimiter.init, pyInt, h.le]

/-- Witness for the amended C8 at `rate = 5/2`. -/
theorem default_burst_is_floor_witness :
    (RateLimiter.init (5 / 2) none 0).burst = ⌊(5 / 2 : ℚ)⌋ :=
  default_burst_is_floor (5 / 2) (by norm_num) 0

/-- C1: evaluation of `RateLimiter.acquire` at the failing input.  Take
`rate = 1`, `burst = 1`, an empty bucket (`tokens = 0`) at `last_update =
0`, and call `acquire(1)` at `t = 0`; then call `acquire(1)` again at
`t = 1`, the moment the first sleep ends.  The code sleeps `1` second but
leaves `last_update = 0` and never debits, so the second call refills the
slept second again and is granted a token immediately (returns `0`) — the
token paid for by the wait is handed out twice.  Under the account in the
spec (`acquireSpec`) the first call ends with `tokens = 0`,
`last_update = 1`, and the second call must wait a further `1/rate`.
A second exhibit: from `tokens = 1/2` the code leaves `tokens = 1/2` after
the wait where the spec demands `0`. -/
theorem acquire_double_counts_sleep :
    ((RateLimiter.mk 1 1 0 0).acquire 0 1).1 = 1 ∧
    ((RateLimiter.mk 1 1 0 0).acquire 0 1).2.tokens = 0 ∧
    ((RateLimiter.mk 1 1 0 0).acquire 0 1).2.last_update = 0 ∧
    ((((RateLimiter.mk 1 1 0 0).acquire 0 1).2).acquire 1 1).1 = 0 ∧
    ((RateLimiter.mk 1 1 (1 / 2) 0).acquire 0 1).2.tokens = 1 / 2 ∧
    ((RateLimiter.mk 1 1 0 0).acquireSpec 0 1).2.tokens = 0 ∧
    ((RateLimiter.mk 1 1 0 0).acquireSpec 0 1).2.last_update = 1 ∧
    ((((RateLimiter.mk 1 1 0 0).acquireSpec 0 1).2).acquireSpec 1 1).1 = 1 := by
  norm_num [RateLimiter.acquire, RateLimiter.acquireSpec, min_def]

/-- C6: region filtering applies the deny-wins tie-break — a region that
is in both `only_regions` and `skip_regions` never survives
`_filter_regions`; the concrete input from the spec filters to `[]`; and
an empty filtered region list short-circuits `scan_all_regions` to an
empty result. -/
theorem filter_regions_deny_wins {α : Type} (cfg : ScannerConfig)
    (regions : List String) (r : String)
    (honly : r ∈ cfg.only_regions) (hskip : r ∈ cfg.skip_regions) :
    r ∉ filter_regions cfg regions ∧
    filter_regions ⟨["us-east-1"], ["us-east-1"]⟩ ["us-east-1", "us-west-2"] = [] ∧
    ∀ (scan : String → Except Exc (List α)) (cfg2 : ScannerConfig)
      (regions2 : List String), filter_regions cfg2 regions2 = [] →
      scan_all_regions cfg2 scan regions2 = [] := by
  refine ⟨?_, by decide, ?_⟩
  · intro hmem
    have hskipped : r ∈ regions.filter (fun x => decide (x ∉ cfg.skip_regions)) := by
      simp only [filter_regions, if_pos (List.ne_nil_of_mem hskip)] at hmem
      rcases h : cfg.only_regions with _ | ⟨a, l⟩
      · simpa [h] using hmem
      · rw [h] at hmem
        simp only [ne_eq, reduceCtorEq, not_false_eq_true, if_true] at hmem
        exact (List.mem_filter.mp hmem).1
    have hnot := (List.mem_filter.mp hskipped).2
    simp only [decide_eq_true_eq] at hnot
    exact hnot hskip
  · intro scan cfg2 regions2 h
    simp [scan_all_regions, h]

/-- Witness for C6: with `only_regions = skip_regions = ["us-east-1"]`,
the region `us-east-1` is excluded from the filtered list. -/
theorem filter_regions_deny_wins_witness :
    "us-east-1" ∉
      filter_regions ⟨["us-east-1"], ["us-east-1"]⟩ ["us-east-1", "us-west-2"] :=
  (filter_regions_deny_wins (α := Unit) ⟨["us-east-1"], ["us-east-1"]⟩
    ["us-east-1", "us-west-2"] "us-east-1" (by decide) (by decide)).1

/-- A concrete three-region enumerator: region `A` returns two resources,
region `B` raises, region `C` returns three resources. -/
def scanABC : String → Except Exc (List String) := fun r =>
  if r = "A" then .ok ["a1", "a2"]
  else if r = "B" then .error (.otherError "boom")
  else .ok ["c1", "c2", "c3"]

/-- C2: in `scan_all_regions` over regions `[A, B, C]` where the scan of
`B` raises any error and `A`, `C` return lists of sizes 2 and 3, the
result is exactly the five resources of `A` and `C` — the failing region
contributes zero resources and does not affect the others. -/
theorem scan_all_regions_partial_failure {α : Type}
    (scan : String → Except Exc (List α)) (la lc : List α) (e : Exc)
    (hA : scan "A" = .ok la) (hB : scan "B" = .error e) (hC : scan "C" = .ok lc)
    (h2 : la.length = 2) (h3 : lc.length = 3) :
    scan_all_regions ⟨[], []⟩ scan ["A", "B", "C"] = la ++ lc ∧
    (scan_all_regions ⟨[], []⟩ scan ["A", "B", "C"]).length = 5 := by
  have hres : scan_all_regions ⟨[], []⟩ scan ["A", "B", "C"] = la ++ lc := by
    simp [scan_all_regions, filter_regions, scan_region_with_error_handling,
      hA, hB, hC]
  exact ⟨hres, by simp [hres, h2, h3]⟩

/-- Witness for C2 at the concrete enumerator `scanABC`. -/
theorem scan_all_regions_partial_failure_witness :
    scan_all_regions ⟨[], []⟩ scanABC ["A", "B", "C"]
      = ["a1", "a2"] ++ ["c1", "c2", "c3"] ∧
    (scan_all_regions ⟨[], []⟩ scanABC ["A", "B", "C"]).length = 5 :=
  scan_all_regions_partial_failure scanABC ["a1", "a2"] ["c1", "c2", "c3"]
    (.otherError "boom") rfl rfl rfl rfl rfl

/-- Concatenation distributes over the streamed service outcomes. -/
lemma scan_services_streaming_append {α : Type}
    (l1 l2 : List (Except Exc (List α))) :
    scan_services_streaming (l1 ++ l2)
      = scan_services_streaming l1 ++ scan_services_streaming l2 := by
  induction l1 with
  | nil => simp [scan_services_streaming]
  | cons x l ih => cases x <;> simp [scan_services_streaming, ih]

/-- C3: a service whose `scan_all_regions` future raises contributes zero
resources to `scan_services_streaming`, and every other service still
contributes all of its resources; the eager `scan_services_concurrently`
agrees, being `list(...)` of the stream. -/
theorem scan_services_failure_isolation {α : Type}
    (xs ys : List (Except Exc (List α))) (e : Exc) :
    scan_services_streaming (xs ++ (.error e : Except Exc (List α)) :: ys)
      = scan_services_streaming xs ++ scan_services_streaming ys ∧
    scan_services_concurrently (xs ++ (.error e : Except Exc (List α)) :: ys)
      = scan_services_streaming xs ++ scan_services_streaming ys := by
  have herr : scan_services_streaming ((.error e : Except Exc (List α)) :: ys)
      = scan_services_streaming ys := by
    simp [scan_services_streaming]
  exact ⟨by simp [scan_services_streaming_append, herr],
    by simp [scan_services_concurrently, scan_services_streaming_append, herr]⟩

/-- Whether an exception value is an `AWSAccessDeniedError`. -/
def Exc.isAccessDenied : Exc → Bool
  | .awsAccessDenied _ => true
  | _ => false

/-- Whether an exception value is an `AWSRateLimitError`. -/
def Exc.isRateLimit : Exc → Bool
  | .awsRateLimit _ => true
  | _ => false

/-- C5 counterexample: the claim says errors outside the access-denied,
throttling and connection classes are Fatal, i.e. re-raised unchanged and
NOT retried — but `retry_with_backoff` defaults to retrying every
`ClientError`, so a `ClientError` with the unrecognized code
`ValidationError` is retried even though `handle_aws_error` re-raises it
unchanged.  The "not retried" part of the claim is false. -/
theorem handle_aws_error_counterexample :
    ¬ (∀ code msg, code ∉ accessDeniedCodes → code ∉ throttlingCodes →
        default_retry_exceptions (.clientError code msg) = false) := by
  intro h
  have := h "ValidationError" "bad parameter" (by decide) (by decide)
  simp [default_retry_exceptions] at this

/-- C5 (amended): `handle_aws_error` raises `AWSAccessDeniedError` exactly
when given a provider `ClientError` whose code is a known access-denied
code, raises `AWSRateLimitError` exactly when the code is a known
throttling code, and re-raises every other provider error unchanged;
connection-level errors are retryable under the default retry tuple
(Transient), but so is every `ClientError` — an unrecognized-code
`ClientError` is re-raised unchanged yet remains retryable, and only
non-`ClientError`, non-connection errors are both re-raised unchanged and
non-retryable (Fatal). -/
theorem handle_aws_error_classification (e : Exc) (ctx : String)
    (hprov : e.isProviderError = true) :
    ((handle_aws_error e ctx).isAccessDenied = true ↔
      ∃ code msg, e = .clientError code msg ∧ code ∈ accessDeniedCodes) ∧
    ((handle_aws_error e ctx).isRateLimit = true ↔
      ∃ code msg, e = .clientError code msg ∧ code ∈ throttlingCodes) ∧
    (∀ msg, e = .connectionError msg →
      handle_aws_error e ctx = e ∧ default_retry_exceptions e = true) ∧
    (∀ code msg, e = .clientError code msg → code ∉ accessDeniedCodes →
      code ∉ throttlingCodes →
      handle_aws_error e ctx = e ∧ default_retry_exceptions e = true) ∧
    (∀ msg, e = .otherError msg →
      handle_aws_error e ctx = e ∧ default_retry_exceptions e = false) := by
  cases e with
  | clientError code msg =>
      by_cases had : code ∈ accessDeniedCodes
      · have hth : code ∉ throttlingCodes := by
          fin_cases had <;> decide
        simp [handle_aws_error, had, hth, Exc.isAccessDenied, Exc.isRateLimit,
          default_retry_exceptions]
      · by_cases hth : code ∈ throttlingCodes
        · simp [handle_aws_error, had, hth, Exc.isAccessDenied, Exc.isRateLimit,
            default_retry_exceptions]
        · simp [handle_aws_error, had, hth, Exc.isAccessDenied, Exc.isRateLimit,
            default_retry_exceptions]
  | connectionError msg =>
      simp [handle_aws_error, Exc.isAccessDenied, Exc.isRateLimit,
        default_retry_exceptions]
  | otherError msg =>
      simp [handle_aws_error, Exc.isAccessDenied, Exc.isRateLimit,
        default_retry_exceptions]
  | awsAccessDenied msg => simp [Exc.isProviderError] at hprov
  | awsRateLimit msg => simp [Exc.isProviderError] at hprov
  | runtimeError msg => simp [Exc.isProviderError] at hprov

/-- Witness for the amended C5 at a `ClientError` with code
`AccessDenied`. -/
theorem handle_aws_error_classification_witness :
    (handle_aws_error (.clientError "AccessDenied" "no") "ctx").isAccessDenied
      = true :=
  ((handle_aws_error_classification (.clientError "AccessDenied" "no") "ctx"
      rfl).1).mpr ⟨"AccessDenied", "no", rfl, by decide⟩

/-- C9: calling the function wrapped by `retry_with_backoff` with
`max_attempts <= 0` raises `RuntimeError` without invoking the operation
even once — the `for` loop over the empty `range` leaves
`last_exception = None`, and the decorator never validates the
`max_retries >= 1` precondition of the spec. -/
theorem retry_zero_attempts {α : Type} (ma : ℤ) (h : ma ≤ 0)
    (op : Nat → Except Exc α) (retryable : Exc → Bool) (d bf : ℚ) :
    retry_with_backoff op retryable ma d bf
      = { invocations := 0, sleeps := [],
          result := .error (.runtimeError "All retry attempts failed") } := by
  have h0 : ma.toNat = 0 := Int.toNat_of_nonpos h
  simp [retry_with_backoff, h0, retryAux]

/-- Witness for C9 at `max_attempts = -1`. -/
theorem retry_zero_attempts_witness :
    retry_with_backoff (fun _ => (Except.ok 0 : Except Exc Nat))
        default_retry_exceptions (-1) 1 2
      = { invocations := 0, sleeps := [],
          result := .error (.runtimeError "All retry attempts failed") } :=
  retry_zero_attempts (-1) (by norm_num) (fun _ => Except.ok 0)
    default_retry_exceptions 1 2

/-- When every invocation fails with a retryable error (`op i` raising
`f i`), the retry loop runs all `rem` remaining attempts and propagates
the error of the last one. -/
lemma retryAux_all_retryable {α : Type} (op : Nat → Except Exc α)
    (retryable : Exc → Bool) (factor : ℚ) (f : Nat → Exc)
    (hop : ∀ i, op i = .error (f i)) (hr : ∀ i, retryable (f i) = true) :
    ∀ rem, 1 ≤ rem → ∀ attempt delay lastExc,
      (retryAux op retryable factor rem attempt delay lastExc).invocations = rem ∧
      (retryAux op retryable factor rem attempt delay lastExc).result
        = .error (f (attempt + rem - 1)) := by
  intro rem
  induction rem with
  | zero => omega
  | succ n ih =>
      intro _ attempt delay lastExc
      by_cases hn : n = 0
      · subst hn
        simp [retryAux, hop attempt, hr attempt]
      · have IH := ih (Nat.one_le_iff_ne_zero.mpr hn) (attempt + 1)
          (delay * factor) (some (f attempt))
        simp only [retryAux, hop attempt, hr attempt, if_true, hn, if_false]
        refine ⟨by simp [IH.1], ?_⟩
        rw [show attempt + (n + 1) - 1 = attempt + 1 + n - 1 by omega]
        exact IH.2

/-- C4: with `max_attempts >= 1`, the operation wrapped by
`retry_with_backoff` is invoked exactly `max_attempts` times when every
invocation raises a retryable error, the last such error being
propagated; it is invoked exactly once with no sleep when the first
invocation succeeds; and a non-retryable error on the first invocation
propagates immediately, after exactly one invocation and no sleep. -/
theorem retry_with_backoff_attempt_counts {α : Type}
    (op : Nat → Except Exc α) (retryable : Exc → Bool) (ma : ℤ)
    (d bf : ℚ) (hma : 1 ≤ ma) :
    ((∀ i, ∃ ei, op i = .error ei ∧ retryable ei = true) →
      (retry_with_backoff op retryable ma d bf).invocations = ma.toNat ∧
      ∃ elast, op (ma.toNat - 1) = .error elast ∧
        (retry_with_backoff op retryable ma d bf).result = .error elast) ∧
    (∀ v, op 0 = .ok v →
      retry_with_backoff op retryable ma d bf
        = { invocations := 1, sleeps := [], result := .ok v }) ∧
    (∀ e, op 0 = .error e → retryable e = false →
      retry_with_backoff op retryable ma d bf
        = { invocations := 1, sleeps := [], result := .error e }) := by
  obtain ⟨k, hk⟩ : ∃ k, ma.toNat = k + 1 := ⟨ma.toNat - 1, by omega⟩
  refine ⟨?_, ?_, ?_⟩
  · intro hall
    choose f hf hr using hall
    have key := retryAux_all_retryable op retryable bf f hf hr ma.toNat
      (by omega) 0 d none
    refine ⟨by simpa [retry_with_backoff] using key.1,
      f (ma.toNat - 1), hf _, ?_⟩
    have := key.2
    rw [Nat.zero_add] at this
    simpa [retry_with_backoff] using this
  · intro v hv
    simp only [retry_with_backoff, hk]
    simp [retryAux, hv]
  · intro e he hre
    simp only [retry_with_backoff, hk]
    simp [retryAux, he, hre]

/-- Witness for C4: three attempts, all throttled. -/
theorem retry_with_backoff_attempt_counts_witness :
    (retry_with_backoff (fun _ => (Except.error (Exc.awsRateLimit "slow") :
        Except Exc Nat)) default_retry_exceptions 3 1 2).invocations
      = (3 : ℤ).toNat :=
  ((retry_with_backoff_attempt_counts
      (fun _ => Except.error (Exc.awsRateLimit "slow"))
      default_retry_exceptions 3 1 2 (by norm_num)).1
    (fun _ => ⟨Exc.awsRateLimit "slow", rfl, rfl⟩)).1

/-- `acquire` never changes the `rate` and `burst` fields. -/
lemma acquire_step_fields (rl : RateLimiter) (now : ℚ) (n : ℕ) :
    ((rl.acquire now n).2).rate = rl.rate ∧
    ((rl.acquire now n).2).burst = rl.burst := by
  simp only [RateLimiter.acquire]
  split <;> simp

/-- One `acquire(1)` step keeps `tokens` within `[0, burst]` when the
elapsed time is nonnegative. -/
lemma acquire_step_tokens (rl : RateLimiter) (gap : ℚ)
    (hrate : 0 < rl.rate) (hburst : 0 ≤ (rl.burst : ℚ)) (h0 : 0 ≤ rl.tokens)
    (hgap : 0 ≤ gap) :
    0 ≤ ((rl.acquire (rl.last_update + gap) 1).2).tokens ∧
    ((rl.acquire (rl.last_update + gap) 1).2).tokens ≤ (rl.burst : ℚ) := by
  simp only [RateLimiter.acquire]
  have hel : rl.last_update + gap - rl.last_update = gap := by ring
  rw [hel]
  have hge : 0 ≤ min (rl.burst : ℚ) (rl.tokens + gap * rl.rate) :=
    le_min hburst (add_nonneg h0 (mul_nonneg hgap hrate.le))
  have hle : min (rl.burst : ℚ) (rl.tokens + gap * rl.rate) ≤ (rl.burst : ℚ) :=
    min_le_left _ _
  split
  · next h =>
      constructor
      · simp only [Nat.cast_one] at h ⊢
        linarith
      · simp only [Nat.cast_one] at h ⊢
        linarith
  · next h => exact ⟨hge, hle⟩

/-- C7: for every `RateLimiter` with `rate > 0` and `burst > 0`, across
any sequence of `acquire(1)` calls separated by nonnegative delays the
`tokens` value never becomes negative and never exceeds `burst`. -/
theorem rateLimiter_tokens_invariant (rl : RateLimiter) (gaps : List ℚ)
    (hrate : 0 < rl.rate) (hburst : 0 < rl.burst)
    (h0 : 0 ≤ rl.tokens) (h1 : rl.tokens ≤ (rl.burst : ℚ))
    (hg : ∀ g ∈ gaps, 0 ≤ g) :
    0 ≤ (rl.acquireSeq gaps).tokens ∧
    (rl.acquireSeq gaps).tokens ≤ ((rl.acquireSeq gaps).burst : ℚ) := by
  induction gaps generalizing rl with
  | nil => simpa [RateLimiter.acquireSeq] using ⟨h0, h1⟩
  | cons g gs ih =>
      have hgap : 0 ≤ g := hg g (List.mem_cons_self g gs)
      have hfields := acquire_step_fields rl (rl.last_update + g) 1
      have hbq : 0 ≤ (rl.burst : ℚ) := by exact_mod_cast hburst.le
      have hstep := acquire_step_tokens rl g hrate hbq h0 hgap
      rw [RateLimiter.acquireSeq]
      apply ih
      · rw [hfields.1]; exact hrate
      · rw [hfields.2]; exact hburst
      · exact hstep.1
      · rw [hfields.2]; exact hstep.2
      · intro x hx; exact hg x (List.mem_cons_of_mem _ hx)

/-- Witness for C7: a full bucket with `rate = burst = 1` over the gap
sequence `[0, 1]`. -/
theorem rateLimiter_tokens_invariant_witness :
    0 ≤ ((RateLimiter.mk 1 1 1 0).acquireSeq [0, 1]).tokens ∧
    ((RateLimiter.mk 1 1 1 0).acquireSeq [0, 1]).tokens
      ≤ (((RateLimiter.mk 1 1 1 0).acquireSeq [0, 1]).burst : ℚ) :=
  rateLimiter_tokens_invariant (RateLimiter.mk 1 1 1 0) [0, 1]
    (show (0 : ℚ) < 1 by norm_num) (show (0 : ℤ) < 1 by norm_num)
    (show (0 : ℚ) ≤ 1 by norm_num) (show (1 : ℚ) ≤ ((1 : ℤ) : ℚ) by norm_num)
    (by intro g hgmem; fin_cases hgmem <;> norm_num)

end AwsScanner
